import Mathlib

/-!
Verification of the TabKebab icon generator (`src/icons/generate_icons.py`).

The script composes a fixed set of filled shapes (ellipses, rounded
rectangles, one polygon) on a 512×512 RGBA canvas and then downscales the
result to each target size with Lanczos resampling, writing one PNG per
size.  We embed the geometry exactly as the source computes it.

`int(S * ratio)` in Python truncates the float product toward zero; for
every ratio used in this file the product `512 * ratio` is not an exact
integer in the reals and its float rounding never crosses an integer
boundary, so the truncation coincides with exact rational floor division
`S * num / den` on naturals.  Every numeric definition below records the
source ratio it embeds.
-/

namespace TabKebab

/-- `SIZES = [16, 32, 48, 128]` (line 7 of the source). -/
def SIZES : List Int := [16, 32, 48, 128]

/-- `RENDER_SIZE = 512` (line 10): canonical render edge length. -/
def RENDER_SIZE : Nat := 512

/-- An RGB fill color, as passed to the Pillow draw calls. -/
structure Color where
  r : Nat
  g : Nat
  b : Nat
deriving DecidableEq, Repr

/-- `#2563eb`, the background / inner-knob blue. -/
def blue : Color := ⟨37, 99, 235⟩

/-- `#f8f9fa`, the stick / tip / outer-knob light neutral. -/
def lightNeutral : Color := ⟨248, 249, 250⟩

/-- One Pillow draw call, with the exact arguments the script passes. -/
inductive DrawOp where
  | ellipse (x0 y0 x1 y1 : Nat) (fill : Color)
  | roundedRect (x0 y0 x1 y1 : Nat) (radius : Nat) (fill : Color)
  | polygon (pts : List (Nat × Nat)) (fill : Color)
deriving DecidableEq, Repr

/-- Geometric constant `int(S * 0.0625)` (line 21): background margin. -/
def margin (S : Nat) : Nat := S * 625 / 10000

/-- Geometric constant `int(S * 0.0625)` (line 28): stick width. -/
def stick_w (S : Nat) : Nat := S * 625 / 10000

/-- Geometric constant `int(S * 0.109)` (line 30): stick top y. -/
def stick_top (S : Nat) : Nat := S * 109 / 1000

/-- Geometric constant `int(S * 0.891)` (line 31): stick bottom y. -/
def stick_bot (S : Nat) : Nat := S * 891 / 1000

/-- Geometric constant `int(S * 0.844)` (line 39): tip upper edge y. -/
def tip_top (S : Nat) : Nat := S * 844 / 1000

/-- Geometric constant `int(S * 0.953)` (line 40): tip apex y. -/
def tip_bot (S : Nat) : Nat := S * 953 / 1000

/-- Geometric constant `int(S * 0.039)` (line 61): chunk corner radius. -/
def chunk_r (S : Nat) : Nat := S * 39 / 1000

/-- Geometric constant `int(S * 0.109)` (line 67): notch width. -/
def tab_w (S : Nat) : Nat := S * 109 / 1000

/-- Geometric constant `int(S * 0.047)` (line 68): notch height. -/
def tab_h (S : Nat) : Nat := S * 47 / 1000

/-- Geometric constant `max(2, int(S * 0.016))` (line 69): notch corner
radius, with an absolute lower bound of 2 pixels. -/
def tab_r (S : Nat) : Nat := max 2 (S * 16 / 1000)

/-- Geometric constant `int(S * 0.031)` (line 71): notch x offset inside
its chunk. -/
def tab_dx (S : Nat) : Nat := S * 31 / 1000

/-- Geometric constant `int(S * 0.109)` (line 76): knob center y. -/
def knob_cy (S : Nat) : Nat := S * 109 / 1000

/-- Geometric constant `int(S * 0.047)` (line 77): outer knob radius. -/
def knob_r_outer (S : Nat) : Nat := S * 47 / 1000

/-- Geometric constant `int(S * 0.023)` (line 78): inner knob radius. -/
def knob_r_inner (S : Nat) : Nat := S * 23 / 1000

/-- One entry of the `chunks` table (lines 48–54): ratios are stored as
numerators over 1000, exactly as written in the source. -/
structure ChunkSpec where
  yc_num : Nat
  wr_num : Nat
  hr_num : Nat
  main_col : Color
  tab_col : Color
deriving DecidableEq, Repr

/-- The `chunks` list (lines 48–54), in source order (top to bottom). -/
def chunks : List ChunkSpec :=
  [ ⟨234, 344, 156, ⟨248, 113, 113⟩, ⟨252, 165, 165⟩⟩,   -- red
    ⟨422, 344, 156, ⟨251, 191, 36⟩,  ⟨253, 230, 138⟩⟩,   -- amber
    ⟨609, 344, 156, ⟨52, 211, 153⟩,  ⟨110, 231, 183⟩⟩,   -- green
    ⟨781, 281, 125, ⟨167, 139, 250⟩, ⟨196, 181, 253⟩⟩ ]  -- purple

/-- Chunk body width `w = int(S * wr)` (line 57). -/
def chunk_w (S : Nat) (c : ChunkSpec) : Nat := S * c.wr_num / 1000

/-- Chunk body height `h = int(S * hr)` (line 58). -/
def chunk_h (S : Nat) (c : ChunkSpec) : Nat := S * c.hr_num / 1000

/-- Chunk top `y = int(S * yc) - h // 2` (line 59). -/
def chunk_y (S : Nat) (c : ChunkSpec) : Nat :=
  S * c.yc_num / 1000 - chunk_h S c / 2

/-- Chunk left `x = (S - w) // 2` (line 60). -/
def chunk_x (S : Nat) (c : ChunkSpec) : Nat := (S - chunk_w S c) / 2

/-- The chunk body draw call (line 64). -/
def chunkBody (S : Nat) (c : ChunkSpec) : DrawOp :=
  .roundedRect (chunk_x S c) (chunk_y S c)
    (chunk_x S c + chunk_w S c) (chunk_y S c + chunk_h S c)
    (chunk_r S) c.main_col

/-- The notch draw call (lines 70–73), issued right after the body. -/
def chunkNotch (S : Nat) (c : ChunkSpec) : DrawOp :=
  .roundedRect (chunk_x S c + tab_dx S) (chunk_y S c)
    (chunk_x S c + tab_dx S + tab_w S) (chunk_y S c + tab_h S)
    (tab_r S) c.tab_col

/-- One iteration of the chunk loop (lines 56–73): body, then notch. -/
def chunkOps (S : Nat) (c : ChunkSpec) : List DrawOp :=
  [chunkBody S c, chunkNotch S c]

/-- The full back-to-front sequence of draw calls issued by `draw_icon`
on the canonical canvas (lines 20–88): background disk, stick, tip,
the four chunk iterations, then the two knob circles.  The whole list is
computed from `RENDER_SIZE` and the fixed constants only; the `size`
argument of `draw_icon` plays no part in it. -/
def composedOps : List DrawOp :=
  let S := RENDER_SIZE
  let sw := stick_w S
  let sx := (S - sw) / 2
  let cx := S / 2
  [ .ellipse (margin S) (margin S) (S - margin S) (S - margin S) blue,
    .roundedRect sx (stick_top S) (sx + sw) (stick_bot S) (sw / 2) lightNeutral,
    .polygon [(cx - sw / 2, tip_top S), (cx + sw / 2, tip_top S), (cx, tip_bot S)]
      lightNeutral ]
  ++ chunks.flatMap (chunkOps S)
  ++ [ .ellipse (cx - knob_r_outer S) (knob_cy S - knob_r_outer S)
         (cx + knob_r_outer S) (knob_cy S + knob_r_outer S) lightNeutral,
       .ellipse (cx - knob_r_inner S) (knob_cy S - knob_r_inner S)
         (cx + knob_r_inner S) (knob_cy S + knob_r_inner S) blue ]

/-- A Pillow image value as this script produces it: either a fresh canvas
with the draw calls applied to it, or the result of a `resize`.  The pixel
raster is fully determined by these constructors, so resampling stays an
abstract (but deterministic) step. -/
inductive PImage where
  | canvas (mode : String) (width height : Nat)
      (background : Nat × Nat × Nat × Nat) (ops : List DrawOp)
  | resized (src : PImage) (width height : Int) (filter : String)
deriving DecidableEq, Repr

/-- An image's mode string; `resize` preserves the source mode. -/
def PImage.mode : PImage → String
  | .canvas m _ _ _ _ => m
  | .resized src _ _ _ => src.mode

/-- An image's width in pixels. -/
def PImage.width : PImage → Int
  | .canvas _ w _ _ _ => (w : Int)
  | .resized _ w _ _ => w

/-- An image's height in pixels. -/
def PImage.height : PImage → Int
  | .canvas _ _ h _ _ => (h : Int)
  | .resized _ _ h _ => h

/-- Modelled from the spec: the external rasterization collaborator's
`resize an image to new dimensions using a high-quality interpolating
filter` primitive (Pillow `Image.resize`, not part of this repository).
Per the spec, a non-positive target size is a fatal precondition
violation: Pillow's raster core rejects any target dimension below 1 with
`ValueError: height and width must be > 0`, which we model as `Except`. -/
def PImage.resize (img : PImage) (w h : Int) (filter : String) :
    Except String PImage :=
  if w < 1 ∨ h < 1 then .error "height and width must be > 0"
  else .ok (.resized img w h filter)

/-- The fully composed canonical-space canvas of `draw_icon`
(lines 16–88): a transparent 512×512 RGBA canvas carrying `composedOps`. -/
def canonicalCanvas : PImage :=
  .canvas "RGBA" RENDER_SIZE RENDER_SIZE (0, 0, 0, 0) composedOps

/-- `draw_icon(size)` (lines 13–91): compose on the canonical canvas,
then downscale to `size × size` with `Image.LANCZOS`. -/
def draw_icon (size : Int) : Except String PImage :=
  canonicalCanvas.resize size size "LANCZOS"

/-- One file written by the `__main__` loop: its name, the format string
passed to `save`, and the image saved. -/
structure SavedFile where
  name : String
  format : String
  image : Except String PImage

/-- The `__main__` export loop (lines 94–99): for each size in order,
draw the icon and save it as `icon{size}.png` in PNG format. -/
def exportAll (sizes : List Int) : List SavedFile :=
  sizes.map fun s =>
    { name := "icon" ++ toString s ++ ".png",
      format := "PNG",
      image := draw_icon s }

/-- A dimension function is pure-ratio when it is canonical-size times a
fixed ratio (floor of `S * num / den`) with no size-independent additive
or lower-bound constant. -/
def PureRatio (q : Nat → Nat) : Prop :=
  ∃ num den : Nat, 0 < den ∧ ∀ S : Nat, q S = S * num / den

/-- All geometric ratio constants computed by `draw_icon` from the
canonical size, as functions of that size. -/
def dimFns : List (Nat → Nat) :=
  [margin, stick_w, stick_top, stick_bot, tip_top, tip_bot, chunk_r,
   tab_w, tab_h, tab_r, tab_dx, knob_cy, knob_r_outer, knob_r_inner]
  ++ chunks.flatMap (fun c => [fun S => chunk_w S c, fun S => chunk_h S c,
       fun S => S * c.yc_num / 1000])

/-- As `dimFns` but without the one exception, the notch corner radius
`tab_r`. -/
def dimFnsNoTabR : List (Nat → Nat) :=
  [margin, stick_w, stick_top, stick_bot, tip_top, tip_bot, chunk_r,
   tab_w, tab_h, tab_dx, knob_cy, knob_r_outer, knob_r_inner]
  ++ chunks.flatMap (fun c => [fun S => chunk_w S c, fun S => chunk_h S c,
       fun S => S * c.yc_num / 1000])

/-- The notch rectangle of a chunk lies inside the chunk body's bounds:
its x-range `[x + tab_dx, x + tab_dx + tab_w]` inside `[x, x + w]` and its
y-range `[y, y + tab_h]` inside `[y, y + h]`. -/
abbrev NotchWithinChunk (c : ChunkSpec) : Prop :=
  chunk_x RENDER_SIZE c ≤ chunk_x RENDER_SIZE c + tab_dx RENDER_SIZE
  ∧ chunk_x RENDER_SIZE c + tab_dx RENDER_SIZE + tab_w RENDER_SIZE
      ≤ chunk_x RENDER_SIZE c + chunk_w RENDER_SIZE c
  ∧ chunk_y RENDER_SIZE c ≤ chunk_y RENDER_SIZE c
  ∧ chunk_y RENDER_SIZE c + tab_h RENDER_SIZE
      ≤ chunk_y RENDER_SIZE c + chunk_h RENDER_SIZE c

/-- The notch draw call of a chunk is issued at the position immediately
after its body draw call in the composed op sequence. -/
abbrev NotchImmediatelyAfterBody (c : ChunkSpec) : Prop :=
  ∃ k : Nat, composedOps.get? k = some (chunkBody RENDER_SIZE c)
    ∧ composedOps.get? (k + 1) = some (chunkNotch RENDER_SIZE c)

/-- The vertical pixel bands `[y, y + h]` of two chunks are disjoint. -/
abbrev DisjointVerticalBands (c₁ c₂ : ChunkSpec) : Prop :=
  chunk_y RENDER_SIZE c₁ + chunk_h RENDER_SIZE c₁ < chunk_y RENDER_SIZE c₂
  ∨ chunk_y RENDER_SIZE c₂ + chunk_h RENDER_SIZE c₂ < chunk_y RENDER_SIZE c₁

/-- C1: for every supported size `s ∈ {16, 32, 48, 128}`, `draw_icon s`
returns an image of exactly `s × s` pixels in RGBA mode (alpha channel). -/
theorem c1_compose_dims_mode (s : Int) (hs : s ∈ SIZES) :
    ∃ img : PImage, draw_icon s = .ok img
      ∧ img.width = s ∧ img.height = s ∧ img.mode = "RGBA" := by
  have hs' : s = 16 ∨ s = 32 ∨ s = 48 ∨ s = 128 := by simpa [SIZES] using hs
  obtain rfl | rfl | rfl | rfl := hs' <;> exact ⟨_, rfl, rfl, rfl, rfl⟩

/-- Witness for C1 at `s = 16`. -/
theorem c1_compose_dims_mode_witness :
    ∃ img : PImage, draw_icon 16 = .ok img
      ∧ img.width = 16 ∧ img.height = 16 ∧ img.mode = "RGBA" :=
  c1_compose_dims_mode 16 (by decide)

/-- C2: `draw_icon` is deterministic: two invocations on the same size,
with the same fixed constants, produce the identical image value.  The
embedded composition consumes only `RENDER_SIZE` and the fixed tables, so
it is a pure function of `size`: no randomness, time, or environment. -/
theorem c2_deterministic (s₁ s₂ : Int) (h : s₁ = s₂) :
    draw_icon s₁ = draw_icon s₂ := by rw [h]

/-- Witness for C2 at `s = 16`. -/
theorem c2_deterministic_witness : draw_icon 16 = draw_icon 16 :=
  c2_deterministic 16 16 rfl

/-- C3: for every tab chunk, the notch rounded rectangle lies entirely
within its parent chunk's rectangular bounds, and the notch draw call is
issued immediately after its parent's body draw call. -/
theorem c3_notch_layering (c : ChunkSpec) (hc : c ∈ chunks) :
    NotchWithinChunk c ∧ NotchImmediatelyAfterBody c := by
  fin_cases hc
  · exact ⟨by decide, 3, by decide, by decide⟩
  · exact ⟨by decide, 5, by decide, by decide⟩
  · exact ⟨by decide, 7, by decide, by decide⟩
  · exact ⟨by decide, 9, by decide, by decide⟩

/-- Witness for C3 at the first (red) chunk. -/
theorem c3_notch_layering_witness :
    NotchWithinChunk ⟨234, 344, 156, ⟨248, 113, 113⟩, ⟨252, 165, 165⟩⟩
    ∧ NotchImmediatelyAfterBody ⟨234, 344, 156, ⟨248, 113, 113⟩, ⟨252, 165, 165⟩⟩ :=
  c3_notch_layering ⟨234, 344, 156, ⟨248, 113, 113⟩, ⟨252, 165, 165⟩⟩ (by decide)

/-- Any floor of canonical size times a fixed ratio is pure-ratio. -/
theorem pureRatio_div (num den : Nat) (hden : 0 < den) :
    PureRatio (fun S => S * num / den) :=
  ⟨num, den, hden, fun _ => rfl⟩

/-- C4 counterexample: not every geometric constant of `draw_icon` is
pure canonical-size-times-ratio.  The notch corner radius
`tab_r = max(2, int(S * 0.016))` carries the size-independent lower bound
2: any pure-ratio function sends 100 ↦ 2 and 512 ↦ 8 inconsistently. -/
theorem c4_counterexample : ¬ ∀ q ∈ dimFns, PureRatio q := by
  intro h
  obtain ⟨num, den, hden, hq⟩ := h tab_r (by simp [dimFns])
  have e512 : 512 * num / den = 8 := by rw [← hq 512]; decide
  have e100 : 100 * num / den = 2 := by rw [← hq 100]; decide
  have hA : 2 * den ≤ 100 * num :=
    (Nat.le_div_iff_mul_le hden).mp (le_of_eq e100.symm)
  have hB : 512 * num < 9 * den :=
    (Nat.div_lt_iff_lt_mul hden).mp (by rw [e512]; norm_num)
  omega

/-- C4 amended: every geometric constant of `draw_icon` except the notch
corner radius `tab_r` is canonical-size times a fixed ratio, with no
size-independent additive or lower-bound constant; `tab_r` alone carries
the absolute lower bound `max 2 _`. -/
theorem c4_pure_ratios (q : Nat → Nat) (hq : q ∈ dimFnsNoTabR) :
    PureRatio q := by
  fin_cases hq
  · exact pureRatio_div 625 10000 (by norm_num)
  · exact pureRatio_div 625 10000 (by norm_num)
  · exact pureRatio_div 109 1000 (by norm_num)
  · exact pureRatio_div 891 1000 (by norm_num)
  · exact pureRatio_div 844 1000 (by norm_num)
  · exact pureRatio_div 953 1000 (by norm_num)
  · exact pureRatio_div 39 1000 (by norm_num)
  · exact pureRatio_div 109 1000 (by norm_num)
  · exact pureRatio_div 47 1000 (by norm_num)
  · exact pureRatio_div 31 1000 (by norm_num)
  · exact pureRatio_div 109 1000 (by norm_num)
  · exact pureRatio_div 47 1000 (by norm_num)
  · exact pureRatio_div 23 1000 (by norm_num)
  · exact pureRatio_div 344 1000 (by norm_num)
  · exact pureRatio_div 156 1000 (by norm_num)
  · exact pureRatio_div 234 1000 (by norm_num)
  · exact pureRatio_div 344 1000 (by norm_num)
  · exact pureRatio_div 156 1000 (by norm_num)
  · exact pureRatio_div 422 1000 (by norm_num)
  · exact pureRatio_div 344 1000 (by norm_num)
  · exact pureRatio_div 156 1000 (by norm_num)
  · exact pureRatio_div 609 1000 (by norm_num)
  · exact pureRatio_div 281 1000 (by norm_num)
  · exact pureRatio_div 125 1000 (by norm_num)
  · exact pureRatio_div 781 1000 (by norm_num)

/-- Witness for the amended C4 at the background margin. -/
theorem c4_pure_ratios_witness : PureRatio margin :=
  c4_pure_ratios margin (by simp [dimFnsNoTabR])

/-- C5: for every non-positive size, `draw_icon` fails fast: the final
resize rejects the degenerate target dimensions with a `ValueError`
rather than returning an image. -/
theorem c5_nonpositive_fails (size : Int) (h : size ≤ 0) :
    draw_icon size = .error "height and width must be > 0" := by
  unfold draw_icon PImage.resize
  have hc : size < 1 ∨ size < 1 := Or.inl (by omega)
  rw [if_pos hc]

/-- Witness for C5 at `size = 0`. -/
theorem c5_nonpositive_fails_witness :
    draw_icon 0 = .error "height and width must be > 0" :=
  c5_nonpositive_fails 0 (by norm_num)

/-- C6: running the exporter on the default size list yields exactly 4
files, named `icon16.png`, `icon32.png`, `icon48.png`, `icon128.png` in
the sequence order of the size list, each saved in PNG format with
declared dimensions equal to its size. -/
theorem c6_export_files :
    (exportAll SIZES).length = 4
    ∧ (exportAll SIZES).map SavedFile.name
        = ["icon16.png", "icon32.png", "icon48.png", "icon128.png"]
    ∧ (exportAll SIZES).map SavedFile.format = ["PNG", "PNG", "PNG", "PNG"]
    ∧ (exportAll SIZES).map (fun f => f.image.map fun i => (i.width, i.height))
        = SIZES.map fun s => .ok (s, s) := by
  refine ⟨rfl, rfl, rfl, rfl⟩

/-- C7 counterexample: the tip triangle's two upper vertices do not share
the stick's bottom-edge y-coordinate.  They sit at
`tip_top = int(S * 0.844) = 432` while the stick's bottom edge is at
`stick_bot = int(S * 0.891) = 456`. -/
theorem c7_counterexample :
    composedOps.get? 2
      = some (.polygon [(240, 432), (272, 432), (256, 487)] lightNeutral)
    ∧ composedOps.get? 1 = some (.roundedRect 240 55 272 456 16 lightNeutral)
    ∧ tip_top RENDER_SIZE ≠ stick_bot RENDER_SIZE := by decide

/-- C7 amended: the tip triangle's two upper vertices share the stick's
bottom-left and bottom-right x-coordinates, but sit at the fixed ratio
`0.844`, strictly inside the stick's vertical extent (above its bottom
edge at ratio `0.891`); the apex is a single point further down at the
second fixed ratio `0.953`, below the stick; the fill equals the stick's
fill color. -/
theorem c7_tip_geometry :
    RENDER_SIZE / 2 - stick_w RENDER_SIZE / 2
      = (RENDER_SIZE - stick_w RENDER_SIZE) / 2
    ∧ RENDER_SIZE / 2 + stick_w RENDER_SIZE / 2
      = (RENDER_SIZE - stick_w RENDER_SIZE) / 2 + stick_w RENDER_SIZE
    ∧ stick_top RENDER_SIZE < tip_top RENDER_SIZE
    ∧ tip_top RENDER_SIZE < stick_bot RENDER_SIZE
    ∧ stick_bot RENDER_SIZE < tip_bot RENDER_SIZE
    ∧ composedOps.get? 2
        = some (.polygon
            [(RENDER_SIZE / 2 - stick_w RENDER_SIZE / 2, tip_top RENDER_SIZE),
             (RENDER_SIZE / 2 + stick_w RENDER_SIZE / 2, tip_top RENDER_SIZE),
             (RENDER_SIZE / 2, tip_bot RENDER_SIZE)] lightNeutral)
    ∧ composedOps.get? 1
        = some (.roundedRect ((RENDER_SIZE - stick_w RENDER_SIZE) / 2)
            (stick_top RENDER_SIZE)
            ((RENDER_SIZE - stick_w RENDER_SIZE) / 2 + stick_w RENDER_SIZE)
            (stick_bot RENDER_SIZE) (stick_w RENDER_SIZE / 2) lightNeutral) := by
  decide

/-- C8: every size in the fixed target size list is strictly less than
the canonical render size 512, so resampling only ever downscales. -/
theorem c8_only_downscale (s : Int) (hs : s ∈ SIZES) :
    s < (RENDER_SIZE : Int) := by
  have hs' : s = 16 ∨ s = 32 ∨ s = 48 ∨ s = 128 := by simpa [SIZES] using hs
  obtain rfl | rfl | rfl | rfl := hs' <;> decide

/-- Witness for C8 at `s = 128`. -/
theorem c8_only_downscale_witness : (128 : Int) < (RENDER_SIZE : Int) :=
  c8_only_downscale 128 (by decide)

/-- C9: the fully composed canonical canvas is independent of the size
argument: `draw_icon s` is exactly the resize of the one constant
`canonicalCanvas` (whose ops `composedOps` are computed from
`RENDER_SIZE` and fixed constants only) to `s × s`, so any two sizes are
resamplings of the identical canonical image. -/
theorem c9_size_only_in_resize (s₁ s₂ : Int) :
    draw_icon s₁ = canonicalCanvas.resize s₁ s₁ "LANCZOS"
    ∧ draw_icon s₂ = canonicalCanvas.resize s₂ s₂ "LANCZOS" :=
  ⟨rfl, rfl⟩

/-- C10: the four tab chunks occupy pairwise disjoint vertical bands
`[y, y + h]` in the canonical render space: no chunk body or notch can be
occluded by another chunk. -/
theorem c10_disjoint_bands (c₁ c₂ : ChunkSpec) (h₁ : c₁ ∈ chunks)
    (h₂ : c₂ ∈ chunks) (hne : c₁ ≠ c₂) : DisjointVerticalBands c₁ c₂ := by
  fin_cases h₁ <;> fin_cases h₂ <;> revert hne <;> decide

/-- Witness for C10 at the first (red) and second (amber) chunks. -/
theorem c10_disjoint_bands_witness :
    DisjointVerticalBands ⟨234, 344, 156, ⟨248, 113, 113⟩, ⟨252, 165, 165⟩⟩
      ⟨422, 344, 156, ⟨251, 191, 36⟩, ⟨253, 230, 138⟩⟩ :=
  c10_disjoint_bands _ _ (by decide) (by decide) (by decide)

end TabKebab
